import Mathlib

/-! Verification of the control core of the WebGL hero scene (`src/script.js`):
the auto-rotation interaction state machine, the motion-blur uniform
synchronization, the render loop with its frame clock, the visibility-gated
pause/resume controller, and the sliced-reveal fragment shader.

Shallow embedding conventions:
* timestamps (`performance.now()` values) are rationals in milliseconds;
  `THREE.Clock.getDelta` divides by 1000, so deltas are in seconds;
* the module-level mutable variables of the script are gathered in `AppState`;
  each DOM / OrbitControls / timer callback becomes a function
  `AppState → ... → AppState`;
* `setTimeout` handles are modelled by the deadline they were scheduled for:
  a timer-fire event has an effect only while the handle is live and its
  deadline has been reached, which is exactly the browser guarantee;
* `requestAnimationFrame` is modelled by the flag `scheduledFrame` (a future
  tick is pending); `cancelAnimationFrame` clears it;
* observable side effects (draw calls, `controls.update()`, dispatched /
  logged lifecycle events, exceptions escaping `tick`) are recorded in ghost
  counters so that theorems can speak about them.
-/

namespace WebglHero

/-- CONFIG.PAUSE_DELAY (script.js line 22), in milliseconds. -/
def PAUSE_DELAY : ℚ := 500

/-- CONFIG.AUTO_ROTATE_SPEED (script.js line 44), in radians per second. -/
def AUTO_ROTATE_SPEED : ℚ := 0.1

/-- CONFIG.RESUME_DELAY (script.js line 45), in milliseconds. -/
def RESUME_DELAY : ℚ := 700

/-- CONFIG.TRANSITION_DURATION (script.js line 46), in milliseconds. -/
def TRANSITION_DURATION : ℚ := 1200

/-- Fields of the `motionSettings` object (script.js lines 457-460). -/
structure MotionSettings where
  enabled : Bool
  intensity : ℚ
deriving DecidableEq

/-- The `motionSettings` object (script.js lines 457-460). -/
def motionSettings : MotionSettings :=
  { enabled := true, intensity := 5 }

/-- Fields of the `rotationSettings` object (script.js lines 462-469). -/
structure RotationSettings where
  enabled : Bool
  speed : ℚ
  pauseOnInteraction : Bool
  resumeDelay : ℚ
  smoothTransition : Bool
  transitionDuration : ℚ
deriving DecidableEq

/-- The `rotationSettings` object (script.js lines 462-469). -/
def rotationSettings : RotationSettings :=
  { enabled := true, speed := AUTO_ROTATE_SPEED, pauseOnInteraction := true,
    resumeDelay := RESUME_DELAY, smoothTransition := true,
    transitionDuration := TRANSITION_DURATION }

/-- The `velocitySmoothing` constant (script.js line 585). -/
def velocitySmoothing : ℚ := 0.9

/-- State of a `THREE.Clock` (the `clock` created at script.js line 592).
Timestamps are in milliseconds; `getDelta` results are in seconds. -/
structure Clock where
  autoStart : Bool
  running : Bool
  startTime : ℚ
  oldTime : ℚ
  elapsedTime : ℚ
deriving DecidableEq

/-- A freshly constructed `THREE.Clock()` (autoStart defaults to true). -/
def Clock.init : Clock :=
  { autoStart := true, running := false, startTime := 0, oldTime := 0,
    elapsedTime := 0 }

/-- `THREE.Clock.start()` executed at time `t`. -/
def Clock.startAt (c : Clock) (t : ℚ) : Clock :=
  { c with startTime := t, oldTime := t, elapsedTime := 0, running := true }

/-- `THREE.Clock.stop()` executed at time `t` (it first runs
`getElapsedTime()`, then clears `running` and `autoStart`). -/
def Clock.stopAt (c : Clock) (t : ℚ) : Clock :=
  { c with
    elapsedTime :=
      if c.running = true then c.elapsedTime + (t - c.oldTime) / 1000
      else c.elapsedTime,
    oldTime := if c.running = true then t else c.oldTime,
    running := false, autoStart := false }

/-- `THREE.Clock.getDelta()` executed at time `t`: returns the delta in
seconds together with the updated clock. -/
def Clock.getDelta (c : Clock) (t : ℚ) : ℚ × Clock :=
  if c.autoStart = true ∧ c.running = false then (0, c.startAt t)
  else if c.running = true then
    ((t - c.oldTime) / 1000,
     { c with oldTime := t, elapsedTime := c.elapsedTime + (t - c.oldTime) / 1000 })
  else (0, c)

/-- The module-level mutable state of script.js, plus ghost counters for the
observable side effects. -/
structure AppState where
  autoRotate : Bool
  userInteracting : Bool
  resumeTimeout : Option ℚ
  rotationSpeedMultiplier : ℚ
  transitionStartTime : ℚ
  isMouseDown : Bool
  isTouching : Bool
  modelLoaded : Bool
  rotationY : ℚ
  previousRotation : ℚ
  smoothedVelocity : ℚ
  uAngularVelocity : ℚ
  clock : Clock
  isRendering : Bool
  scheduledFrame : Bool
  visIsVisible : Bool
  pauseTimeout : Option ℚ
  lastDelta : ℚ
  readyEvents : Nat
  errorEvents : Nat
  resumedEvents : Nat
  pausedEvents : Nat
  drawCount : Nat
  controlsUpdateCount : Nat
  thrownCount : Nat
deriving DecidableEq

/-- The module state right after top-level initialization (script.js lines
493-499, 583-585, 592-594; `uAngularVelocity` initialized to 0 at line 230;
`VisibilityManager.isVisible` starts true at line 151). -/
def initState : AppState :=
  { autoRotate := true, userInteracting := false, resumeTimeout := none,
    rotationSpeedMultiplier := 1, transitionStartTime := 0,
    isMouseDown := false, isTouching := false,
    modelLoaded := false, rotationY := 0,
    previousRotation := 0, smoothedVelocity := 0, uAngularVelocity := 0,
    clock := Clock.init, isRendering := true, scheduledFrame := false,
    visIsVisible := true, pauseTimeout := none, lastDelta := 0,
    readyEvents := 0, errorEvents := 0, resumedEvents := 0, pausedEvents := 0,
    drawCount := 0, controlsUpdateCount := 0, thrownCount := 0 }

/-- `easePower2Out` (script.js lines 501-503). -/
def easePower2Out (t : ℚ) : ℚ := t * (2 - t)

/-- `resumeRotation` (script.js lines 505-522) called at time `t`: clears
`userInteracting`, then (settings permitting) replaces any pending resume
timer by a fresh one with deadline `t + resumeDelay`. -/
def resumeRotation (s : AppState) (t : ℚ) : AppState :=
  if rotationSettings.pauseOnInteraction = true ∧ rotationSettings.enabled = true then
    { s with userInteracting := false,
             resumeTimeout := some (t + rotationSettings.resumeDelay) }
  else { s with userInteracting := false }

/-- The resume `setTimeout` callback (script.js lines 510-519) attempting to
run at time `t`: it has an effect only if the timer is still pending and its
deadline has been reached, and even then only if no interaction is active. -/
def fireResumeTimer (s : AppState) (t : ℚ) : AppState :=
  match s.resumeTimeout with
  | none => s
  | some d =>
    if d ≤ t then
      if (s.userInteracting = false) then
        if rotationSettings.smoothTransition = true then
          { s with resumeTimeout := none, autoRotate := true,
                   rotationSpeedMultiplier := 0, transitionStartTime := t }
        else
          { s with resumeTimeout := none, autoRotate := true,
                   rotationSpeedMultiplier := 1 }
      else { s with resumeTimeout := none }
    else s

/-- The canvas `mousedown` listener (script.js lines 527-532). -/
def onMouseDown (s : AppState) (button : Nat) : AppState :=
  if button = 0 then { s with isMouseDown := true } else s

/-- The canvas `mouseup` listener (script.js lines 534-537). -/
def onMouseUp (s : AppState) : AppState :=
  { s with isMouseDown := false }

/-- The canvas `mouseleave` listener (script.js lines 539-543) at time `t`. -/
def onMouseLeave (s : AppState) (t : ℚ) : AppState :=
  if s.userInteracting = true then resumeRotation { s with isMouseDown := false } t
  else { s with isMouseDown := false }

/-- The canvas `touchstart` listener (script.js lines 547-550). -/
def onTouchStart (s : AppState) : AppState :=
  { s with isTouching := true }

/-- The canvas `touchend` listener (script.js lines 552-555). -/
def onTouchEnd (s : AppState) : AppState :=
  { s with isTouching := false }

/-- The canvas `touchcancel` listener (script.js lines 557-560). -/
def onTouchCancel (s : AppState) : AppState :=
  { s with isTouching := false }

/-- The OrbitControls `start` listener (script.js lines 563-574): honored
only while a real mouse press or touch is active; then it marks the
interaction, pauses auto-rotation, zeroes the multiplier and cancels any
pending resume timer. -/
def onControlsStart (s : AppState) : AppState :=
  if s.isMouseDown = true ∨ s.isTouching = true then
    if rotationSettings.pauseOnInteraction = true then
      { s with userInteracting := true, autoRotate := false,
               rotationSpeedMultiplier := 0, resumeTimeout := none }
    else
      { s with userInteracting := true, resumeTimeout := none }
  else s

/-- The OrbitControls `end` listener (script.js lines 576-578) at time `t`. -/
def onControlsEnd (s : AppState) (t : ℚ) : AppState :=
  if s.userInteracting = true then resumeRotation s t else s

/-- The gltfLoader success callback (script.js lines 316-349): installs the
model and dispatches the `webglReady` event. It does not touch the rotation
or render-loop state. -/
def onModelReady (s : AppState) : AppState :=
  { s with modelLoaded := true, readyEvents := s.readyEvents + 1 }

/-- The gltfLoader error callback (script.js lines 357-375): dispatches the
`webglError` event. It does not touch the rotation or render-loop state. -/
def onModelError (s : AppState) : AppState :=
  { s with errorEvents := s.errorEvents + 1 }

/-- The rotation-transition block of `tick` (script.js lines 602-607),
executed at time `t`. -/
def tickTransition (s : AppState) (t : ℚ) : AppState :=
  if s.autoRotate = true ∧ rotationSettings.smoothTransition = true ∧
      s.rotationSpeedMultiplier < 1 then
    { s with rotationSpeedMultiplier := easePower2Out
               (min ((t - s.transitionStartTime) / rotationSettings.transitionDuration) 1) }
  else s

/-- The auto-rotate block of `tick` (script.js lines 609-613). -/
def tickRotate (s : AppState) (delta : ℚ) : AppState :=
  if s.autoRotate = true ∧ s.userInteracting = false ∧
      rotationSettings.enabled = true then
    { s with rotationY :=
        s.rotationY + rotationSettings.speed * s.rotationSpeedMultiplier * delta }
  else s

/-- The motion-blur block of `tick` (script.js lines 616-627): raw velocity
from the rotation delta, exponential smoothing, normalization, and the
write-suppressed uniform update. -/
def updateMotionBlur (s : AppState) (delta : ℚ) : AppState :=
  { s with
    smoothedVelocity :=
      s.smoothedVelocity * velocitySmoothing +
        (|s.rotationY - s.previousRotation| / max delta 0.001) *
          (1 - velocitySmoothing),
    uAngularVelocity :=
      if 0.01 <
          |s.uAngularVelocity -
            min ((s.smoothedVelocity * velocitySmoothing +
              (|s.rotationY - s.previousRotation| / max delta 0.001) *
                (1 - velocitySmoothing)) * motionSettings.intensity) 1| then
        min ((s.smoothedVelocity * velocitySmoothing +
          (|s.rotationY - s.previousRotation| / max delta 0.001) *
            (1 - velocitySmoothing)) * motionSettings.intensity) 1
      else s.uAngularVelocity,
    previousRotation := s.rotationY }

/-- The `if(model)` block of `tick` (script.js lines 601-628): transition
update, rotation advance, then motion blur (when enabled). -/
def tickModel (s : AppState) (t delta : ℚ) : AppState :=
  if s.modelLoaded = true then
    if motionSettings.enabled = true then
      updateMotionBlur (tickRotate (tickTransition s t) delta) delta
    else tickRotate (tickTransition s t) delta
  else s

/-- The tail of `tick` (script.js lines 630-633): `controls.update()`, the
draw, and the reschedule. A failing draw throws out of `tick`, so the
`requestAnimationFrame` on line 633 is never reached: no further tick is
scheduled, no event is dispatched, and the exception escapes. -/
def tickDraw (s : AppState) (drawOk : Bool) : AppState :=
  if drawOk = true then
    { s with controlsUpdateCount := s.controlsUpdateCount + 1,
             drawCount := s.drawCount + 1, scheduledFrame := true }
  else
    { s with controlsUpdateCount := s.controlsUpdateCount + 1,
             thrownCount := s.thrownCount + 1, scheduledFrame := false }

/-- `tick` (script.js lines 596-634) executed at time `t`; `drawOk` tells
whether the `renderer.render` call succeeds. -/
def tick (s : AppState) (t : ℚ) (drawOk : Bool) : AppState :=
  if s.isRendering = true then
    tickDraw
      (tickModel
        { s with clock := (s.clock.getDelta t).2,
                 lastDelta := (s.clock.getDelta t).1 }
        t ((s.clock.getDelta t).1))
      drawOk
  else s

/-- `handleVisibilityChange` (script.js lines 637-652) at time `t`. Becoming
visible while paused restarts the clock and synchronously runs `tick`;
the pause branch cancels the pending frame and stops the clock. The
`resumedEvents` / `pausedEvents` counters record the `rendering-resumed` /
`rendering-paused` notifications. -/
def handleVisibilityChange (s : AppState) (visible : Bool) (t : ℚ)
    (drawOk : Bool) : AppState :=
  if visible = true ∧ s.isRendering = false then
    tick
      { s with isRendering := true, clock := s.clock.startAt t,
               resumedEvents := s.resumedEvents + 1 }
      t drawOk
  else if visible = false ∧ s.isRendering = true then
    { s with isRendering := false, scheduledFrame := false,
             clock := s.clock.stopAt t, pausedEvents := s.pausedEvents + 1 }
  else s

/-- One IntersectionObserver entry (script.js lines 167-187) at time `t`:
records visibility, always clears any pending pause timer, resumes
immediately on a hidden-to-visible flip, and on a visible-to-hidden flip
schedules the pause with deadline `t + PAUSE_DELAY`. -/
def onIntersection (s : AppState) (intersecting : Bool) (t : ℚ)
    (drawOk : Bool) : AppState :=
  if intersecting = true ∧ s.visIsVisible = false then
    handleVisibilityChange
      { s with visIsVisible := intersecting, pauseTimeout := none }
      true t drawOk
  else if intersecting = false ∧ s.visIsVisible = true then
    { s with visIsVisible := intersecting,
             pauseTimeout := some (t + PAUSE_DELAY) }
  else { s with visIsVisible := intersecting, pauseTimeout := none }

/-- The pause `setTimeout` callback (script.js lines 182-184) attempting to
run at time `t`: effective only while the handle is live and its deadline has
been reached. -/
def firePauseTimer (s : AppState) (t : ℚ) : AppState :=
  match s.pauseTimeout with
  | none => s
  | some d =>
    if d ≤ t then
      handleVisibilityChange { s with pauseTimeout := none } false t true
    else s

/-- GLSL `clamp`. -/
def glslClamp (x lo hi : ℚ) : ℚ := min (max x lo) hi

/-- GLSL `smoothstep` (clamped Hermite interpolation). -/
def smoothstep (edge0 edge1 x : ℚ) : ℚ :=
  glslClamp ((x - edge0) / (edge1 - edge0)) 0 1 *
    glslClamp ((x - edge0) / (edge1 - edge0)) 0 1 *
    (3 - 2 * glslClamp ((x - edge0) / (edge1 - edge0)) 0 1)

/-- The extra quadratic-smoothstep easing applied in the fragment shader. -/
def hermite3 (x : ℚ) : ℚ := x * x * (3 - 2 * x)

/-- The alpha computed by the sliced fragment shader for a wrapped angle
`angle`, slice arc `sliceArc` and angular-velocity uniform `v`
(fragment.glsl, `main`). -/
def slicedFragmentAlpha (angle sliceArc v : ℚ) : ℚ :=
  1 -
    hermite3 (smoothstep (0.020 + v * 0.025)
        ((0.020 + v * 0.025) + (0.015 + v * 0.020)) angle) *
      (1 - hermite3 (smoothstep (sliceArc - (0.015 + v * 0.020)) sliceArc angle))

/-- The full fragment result: `none` when the fragment is discarded
(`alpha < 0.01`), otherwise the alpha it is drawn with. -/
def slicedFragment (angle sliceArc v : ℚ) : Option ℚ :=
  if slicedFragmentAlpha angle sliceArc v < 0.01 then none
  else some (slicedFragmentAlpha angle sliceArc v)

/-- The external stimuli of the system: DOM listeners, OrbitControls
signals, loader callbacks, timer callbacks, IntersectionObserver entries and
animation frames. -/
inductive Event where
  | mousedown (button : Nat)
  | mouseup
  | mouseleave
  | touchstart
  | touchend
  | touchcancel
  | controlsStart
  | controlsEnd
  | resumeTimer
  | modelReady
  | modelError
  | intersection (intersecting : Bool) (drawOk : Bool)
  | pauseTimer
  | tickEv (drawOk : Bool)
deriving DecidableEq

/-- Dispatch of one event at time `t`. -/
def stepAt (s : AppState) (t : ℚ) : Event → AppState
  | .mousedown b => onMouseDown s b
  | .mouseup => onMouseUp s
  | .mouseleave => onMouseLeave s t
  | .touchstart => onTouchStart s
  | .touchend => onTouchEnd s
  | .touchcancel => onTouchCancel s
  | .controlsStart => onControlsStart s
  | .controlsEnd => onControlsEnd s t
  | .resumeTimer => fireResumeTimer s t
  | .modelReady => onModelReady s
  | .modelError => onModelError s
  | .intersection b ok => onIntersection s b t ok
  | .pauseTimer => firePauseTimer s t
  | .tickEv ok => tick s t ok

/-- Run a timestamped event trace from a state. -/
def runTrace (s : AppState) : List (ℚ × Event) → AppState
  | [] => s
  | p :: rest => runTrace (stepAt s p.1 p.2) rest

/-- States reachable from startup through a time-monotone sequence of
events. -/
inductive Reach : ℚ → AppState → Prop where
  | init : Reach 0 initState
  | step {t : ℚ} {s : AppState} (t' : ℚ) (e : Event) :
      Reach t s → t ≤ t' → Reach t' (stepAt s t' e)

/-- The exponential-moving-average recurrence of spec Scenario D:
each output is `0.9 * previous + 0.1 * raw`, starting from 0. -/
def emaRec (s : ℚ) : List ℚ → List ℚ
  | [] => []
  | r :: rs => (0.9 * s + 0.1 * r) :: emaRec (0.9 * s + 0.1 * r) rs

/-- The sequence of `smoothedVelocity` values produced by running the
motion-blur block on a list of (new rotation angle, delta) inputs. -/
def mbSmoothedTrace (s : AppState) : List (ℚ × ℚ) → List ℚ
  | [] => []
  | p :: rest =>
    (updateMotionBlur { s with rotationY := p.1 } p.2).smoothedVelocity ::
      mbSmoothedTrace (updateMotionBlur { s with rotationY := p.1 } p.2) rest

/-- Run the motion-blur block on a list of (new rotation angle, delta)
inputs: before each update the model angle is set arbitrarily, then the
block executes with the given delta. -/
def runMotionBlur (s : AppState) : List (ℚ × ℚ) → AppState
  | [] => s
  | p :: rest => runMotionBlur (updateMotionBlur { s with rotationY := p.1 } p.2) rest

/-- Inductive invariant of the rotation state machine at time bound `t`:
the recorded transition start lies in the past, the speed multiplier is in
`[0, 1]`, an active interaction implies auto-rotation is off, and whenever
auto-rotation is off the multiplier is zero. -/
def RotInv (t : ℚ) (s : AppState) : Prop :=
  s.transitionStartTime ≤ t ∧
  0 ≤ s.rotationSpeedMultiplier ∧ s.rotationSpeedMultiplier ≤ 1 ∧
  (s.userInteracting = true → s.autoRotate = false) ∧
  (s.autoRotate = false → s.rotationSpeedMultiplier = 0)

/-! Small projection lemmas: which fields each block of `tick` leaves
untouched. They are proved by case analysis on the block's guard. -/

@[simp] theorem rotationSettings_enabled : rotationSettings.enabled = true := rfl

@[simp] theorem rotationSettings_pauseOnInteraction :
    rotationSettings.pauseOnInteraction = true := rfl

@[simp] theorem rotationSettings_smoothTransition :
    rotationSettings.smoothTransition = true := rfl

@[simp] theorem motionSettings_enabled : motionSettings.enabled = true := rfl

@[simp] theorem tickTransition_userInteracting (s : AppState) (t : ℚ) :
    (tickTransition s t).userInteracting = s.userInteracting := by
  unfold tickTransition; split <;> rfl

@[simp] theorem tickTransition_autoRotate (s : AppState) (t : ℚ) :
    (tickTransition s t).autoRotate = s.autoRotate := by
  unfold tickTransition; split <;> rfl

@[simp] theorem tickTransition_resumeTimeout (s : AppState) (t : ℚ) :
    (tickTransition s t).resumeTimeout = s.resumeTimeout := by
  unfold tickTransition; split <;> rfl

@[simp] theorem tickTransition_transitionStartTime (s : AppState) (t : ℚ) :
    (tickTransition s t).transitionStartTime = s.transitionStartTime := by
  unfold tickTransition; split <;> rfl

@[simp] theorem tickTransition_rotationY (s : AppState) (t : ℚ) :
    (tickTransition s t).rotationY = s.rotationY := by
  unfold tickTransition; split <;> rfl

@[simp] theorem tickTransition_isRendering (s : AppState) (t : ℚ) :
    (tickTransition s t).isRendering = s.isRendering := by
  unfold tickTransition; split <;> rfl

@[simp] theorem tickTransition_clock (s : AppState) (t : ℚ) :
    (tickTransition s t).clock = s.clock := by
  unfold tickTransition; split <;> rfl

@[simp] theorem tickTransition_pausedEvents (s : AppState) (t : ℚ) :
    (tickTransition s t).pausedEvents = s.pausedEvents := by
  unfold tickTransition; split <;> rfl

@[simp] theorem tickTransition_pauseTimeout (s : AppState) (t : ℚ) :
    (tickTransition s t).pauseTimeout = s.pauseTimeout := by
  unfold tickTransition; split <;> rfl

@[simp] theorem tickTransition_lastDelta (s : AppState) (t : ℚ) :
    (tickTransition s t).lastDelta = s.lastDelta := by
  unfold tickTransition; split <;> rfl

@[simp] theorem tickRotate_userInteracting (s : AppState) (d : ℚ) :
    (tickRotate s d).userInteracting = s.userInteracting := by
  unfold tickRotate; split <;> rfl

@[simp] theorem tickRotate_autoRotate (s : AppState) (d : ℚ) :
    (tickRotate s d).autoRotate = s.autoRotate := by
  unfold tickRotate; split <;> rfl

@[simp] theorem tickRotate_resumeTimeout (s : AppState) (d : ℚ) :
    (tickRotate s d).resumeTimeout = s.resumeTimeout := by
  unfold tickRotate; split <;> rfl

@[simp] theorem tickRotate_transitionStartTime (s : AppState) (d : ℚ) :
    (tickRotate s d).transitionStartTime = s.transitionStartTime := by
  unfold tickRotate; split <;> rfl

@[simp] theorem tickRotate_rotationSpeedMultiplier (s : AppState) (d : ℚ) :
    (tickRotate s d).rotationSpeedMultiplier = s.rotationSpeedMultiplier := by
  unfold tickRotate; split <;> rfl

@[simp] theorem tickRotate_isRendering (s : AppState) (d : ℚ) :
    (tickRotate s d).isRendering = s.isRendering := by
  unfold tickRotate; split <;> rfl

@[simp] theorem tickRotate_clock (s : AppState) (d : ℚ) :
    (tickRotate s d).clock = s.clock := by
  unfold tickRotate; split <;> rfl

@[simp] theorem tickRotate_pausedEvents (s : AppState) (d : ℚ) :
    (tickRotate s d).pausedEvents = s.pausedEvents := by
  unfold tickRotate; split <;> rfl

@[simp] theorem tickRotate_pauseTimeout (s : AppState) (d : ℚ) :
    (tickRotate s d).pauseTimeout = s.pauseTimeout := by
  unfold tickRotate; split <;> rfl

@[simp] theorem tickRotate_lastDelta (s : AppState) (d : ℚ) :
    (tickRotate s d).lastDelta = s.lastDelta := by
  unfold tickRotate; split <;> rfl

@[simp] theorem updateMotionBlur_userInteracting (s : AppState) (d : ℚ) :
    (updateMotionBlur s d).userInteracting = s.userInteracting := rfl

@[simp] theorem updateMotionBlur_autoRotate (s : AppState) (d : ℚ) :
    (updateMotionBlur s d).autoRotate = s.autoRotate := rfl

@[simp] theorem updateMotionBlur_resumeTimeout (s : AppState) (d : ℚ) :
    (updateMotionBlur s d).resumeTimeout = s.resumeTimeout := rfl

@[simp] theorem updateMotionBlur_transitionStartTime (s : AppState) (d : ℚ) :
    (updateMotionBlur s d).transitionStartTime = s.transitionStartTime := rfl

@[simp] theorem updateMotionBlur_rotationSpeedMultiplier (s : AppState) (d : ℚ) :
    (updateMotionBlur s d).rotationSpeedMultiplier = s.rotationSpeedMultiplier := rfl

@[simp] theorem updateMotionBlur_rotationY (s : AppState) (d : ℚ) :
    (updateMotionBlur s d).rotationY = s.rotationY := rfl

@[simp] theorem updateMotionBlur_isRendering (s : AppState) (d : ℚ) :
    (updateMotionBlur s d).isRendering = s.isRendering := rfl

@[simp] theorem updateMotionBlur_clock (s : AppState) (d : ℚ) :
    (updateMotionBlur s d).clock = s.clock := rfl

@[simp] theorem updateMotionBlur_pausedEvents (s : AppState) (d : ℚ) :
    (updateMotionBlur s d).pausedEvents = s.pausedEvents := rfl

@[simp] theorem updateMotionBlur_pauseTimeout (s : AppState) (d : ℚ) :
    (updateMotionBlur s d).pauseTimeout = s.pauseTimeout := rfl

@[simp] theorem updateMotionBlur_lastDelta (s : AppState) (d : ℚ) :
    (updateMotionBlur s d).lastDelta = s.lastDelta := rfl

@[simp] theorem tickDraw_userInteracting (s : AppState) (ok : Bool) :
    (tickDraw s ok).userInteracting = s.userInteracting := by
  unfold tickDraw; split <;> rfl

@[simp] theorem tickDraw_autoRotate (s : AppState) (ok : Bool) :
    (tickDraw s ok).autoRotate = s.autoRotate := by
  unfold tickDraw; split <;> rfl

@[simp] theorem tickDraw_resumeTimeout (s : AppState) (ok : Bool) :
    (tickDraw s ok).resumeTimeout = s.resumeTimeout := by
  unfold tickDraw; split <;> rfl

@[simp] theorem tickDraw_transitionStartTime (s : AppState) (ok : Bool) :
    (tickDraw s ok).transitionStartTime = s.transitionStartTime := by
  unfold tickDraw; split <;> rfl

@[simp] theorem tickDraw_rotationSpeedMultiplier (s : AppState) (ok : Bool) :
    (tickDraw s ok).rotationSpeedMultiplier = s.rotationSpeedMultiplier := by
  unfold tickDraw; split <;> rfl

@[simp] theorem tickDraw_rotationY (s : AppState) (ok : Bool) :
    (tickDraw s ok).rotationY = s.rotationY := by
  unfold tickDraw; split <;> rfl

@[simp] theorem tickDraw_isRendering (s : AppState) (ok : Bool) :
    (tickDraw s ok).isRendering = s.isRendering := by
  unfold tickDraw; split <;> rfl

@[simp] theorem tickDraw_clock (s : AppState) (ok : Bool) :
    (tickDraw s ok).clock = s.clock := by
  unfold tickDraw; split <;> rfl

@[simp] theorem tickDraw_pausedEvents (s : AppState) (ok : Bool) :
    (tickDraw s ok).pausedEvents = s.pausedEvents := by
  unfold tickDraw; split <;> rfl

@[simp] theorem tickDraw_pauseTimeout (s : AppState) (ok : Bool) :
    (tickDraw s ok).pauseTimeout = s.pauseTimeout := by
  unfold tickDraw; split <;> rfl

@[simp] theorem tickDraw_lastDelta (s : AppState) (ok : Bool) :
    (tickDraw s ok).lastDelta = s.lastDelta := by
  unfold tickDraw; split <;> rfl

@[simp] theorem tickModel_userInteracting (s : AppState) (t d : ℚ) :
    (tickModel s t d).userInteracting = s.userInteracting := by
  unfold tickModel; split_ifs <;> simp

@[simp] theorem tickModel_autoRotate (s : AppState) (t d : ℚ) :
    (tickModel s t d).autoRotate = s.autoRotate := by
  unfold tickModel; split_ifs <;> simp

@[simp] theorem tickModel_resumeTimeout (s : AppState) (t d : ℚ) :
    (tickModel s t d).resumeTimeout = s.resumeTimeout := by
  unfold tickModel; split_ifs <;> simp

@[simp] theorem tickModel_transitionStartTime (s : AppState) (t d : ℚ) :
    (tickModel s t d).transitionStartTime = s.transitionStartTime := by
  unfold tickModel; split_ifs <;> simp

@[simp] theorem tickModel_isRendering (s : AppState) (t d : ℚ) :
    (tickModel s t d).isRendering = s.isRendering := by
  unfold tickModel; split_ifs <;> simp

@[simp] theorem tickModel_clock (s : AppState) (t d : ℚ) :
    (tickModel s t d).clock = s.clock := by
  unfold tickModel; split_ifs <;> simp

@[simp] theorem tickModel_pausedEvents (s : AppState) (t d : ℚ) :
    (tickModel s t d).pausedEvents = s.pausedEvents := by
  unfold tickModel; split_ifs <;> simp

@[simp] theorem tickModel_pauseTimeout (s : AppState) (t d : ℚ) :
    (tickModel s t d).pauseTimeout = s.pauseTimeout := by
  unfold tickModel; split_ifs <;> simp

@[simp] theorem tickModel_lastDelta (s : AppState) (t d : ℚ) :
    (tickModel s t d).lastDelta = s.lastDelta := by
  unfold tickModel; split_ifs <;> simp

theorem tick_userInteracting (s : AppState) (t : ℚ) (ok : Bool) :
    (tick s t ok).userInteracting = s.userInteracting := by
  unfold tick; split <;> simp

theorem tick_autoRotate (s : AppState) (t : ℚ) (ok : Bool) :
    (tick s t ok).autoRotate = s.autoRotate := by
  unfold tick; split <;> simp

theorem tick_resumeTimeout (s : AppState) (t : ℚ) (ok : Bool) :
    (tick s t ok).resumeTimeout = s.resumeTimeout := by
  unfold tick; split <;> simp

theorem tick_transitionStartTime (s : AppState) (t : ℚ) (ok : Bool) :
    (tick s t ok).transitionStartTime = s.transitionStartTime := by
  unfold tick; split <;> simp

theorem tick_isRendering (s : AppState) (t : ℚ) (ok : Bool) :
    (tick s t ok).isRendering = s.isRendering := by
  unfold tick; split <;> simp

theorem tick_pausedEvents (s : AppState) (t : ℚ) (ok : Bool) :
    (tick s t ok).pausedEvents = s.pausedEvents := by
  unfold tick; split <;> simp

theorem tick_pauseTimeout (s : AppState) (t : ℚ) (ok : Bool) :
    (tick s t ok).pauseTimeout = s.pauseTimeout := by
  unfold tick; split <;> simp

theorem tick_clock (s : AppState) (t : ℚ) (ok : Bool) :
    (tick s t ok).clock =
      if s.isRendering = true then (s.clock.getDelta t).2 else s.clock := by
  unfold tick; split <;> simp

theorem tick_lastDelta (s : AppState) (t : ℚ) (ok : Bool) :
    (tick s t ok).lastDelta =
      if s.isRendering = true then (s.clock.getDelta t).1 else s.lastDelta := by
  unfold tick; split <;> simp

theorem Clock.getDelta_running (c : Clock) (t : ℚ) (h : c.running = true) :
    ((c.getDelta t).2).running = true := by
  unfold Clock.getDelta Clock.startAt
  split_ifs <;> simp_all

@[simp] theorem tickTransition_thrownCount (s : AppState) (t : ℚ) :
    (tickTransition s t).thrownCount = s.thrownCount := by
  unfold tickTransition; split <;> rfl

@[simp] theorem tickTransition_readyEvents (s : AppState) (t : ℚ) :
    (tickTransition s t).readyEvents = s.readyEvents := by
  unfold tickTransition; split <;> rfl

@[simp] theorem tickTransition_errorEvents (s : AppState) (t : ℚ) :
    (tickTransition s t).errorEvents = s.errorEvents := by
  unfold tickTransition; split <;> rfl

@[simp] theorem tickTransition_resumedEvents (s : AppState) (t : ℚ) :
    (tickTransition s t).resumedEvents = s.resumedEvents := by
  unfold tickTransition; split <;> rfl

@[simp] theorem tickRotate_thrownCount (s : AppState) (d : ℚ) :
    (tickRotate s d).thrownCount = s.thrownCount := by
  unfold tickRotate; split <;> rfl

@[simp] theorem tickRotate_readyEvents (s : AppState) (d : ℚ) :
    (tickRotate s d).readyEvents = s.readyEvents := by
  unfold tickRotate; split <;> rfl

@[simp] theorem tickRotate_errorEvents (s : AppState) (d : ℚ) :
    (tickRotate s d).errorEvents = s.errorEvents := by
  unfold tickRotate; split <;> rfl

@[simp] theorem tickRotate_resumedEvents (s : AppState) (d : ℚ) :
    (tickRotate s d).resumedEvents = s.resumedEvents := by
  unfold tickRotate; split <;> rfl

@[simp] theorem updateMotionBlur_thrownCount (s : AppState) (d : ℚ) :
    (updateMotionBlur s d).thrownCount = s.thrownCount := rfl

@[simp] theorem updateMotionBlur_readyEvents (s : AppState) (d : ℚ) :
    (updateMotionBlur s d).readyEvents = s.readyEvents := rfl

@[simp] theorem updateMotionBlur_errorEvents (s : AppState) (d : ℚ) :
    (updateMotionBlur s d).errorEvents = s.errorEvents := rfl

@[simp] theorem updateMotionBlur_resumedEvents (s : AppState) (d : ℚ) :
    (updateMotionBlur s d).resumedEvents = s.resumedEvents := rfl

@[simp] theorem tickModel_thrownCount (s : AppState) (t d : ℚ) :
    (tickModel s t d).thrownCount = s.thrownCount := by
  unfold tickModel; split_ifs <;> simp

@[simp] theorem tickModel_readyEvents (s : AppState) (t d : ℚ) :
    (tickModel s t d).readyEvents = s.readyEvents := by
  unfold tickModel; split_ifs <;> simp

@[simp] theorem tickModel_errorEvents (s : AppState) (t d : ℚ) :
    (tickModel s t d).errorEvents = s.errorEvents := by
  unfold tickModel; split_ifs <;> simp

@[simp] theorem tickModel_resumedEvents (s : AppState) (t d : ℚ) :
    (tickModel s t d).resumedEvents = s.resumedEvents := by
  unfold tickModel; split_ifs <;> simp

@[simp] theorem tickModel_drawCount (s : AppState) (t d : ℚ) :
    (tickModel s t d).drawCount = s.drawCount := by
  unfold tickModel tickRotate tickTransition updateMotionBlur; split_ifs <;> rfl

/-! Bounds for the easing function and the motion-blur update. -/

theorem easePower2Out_nonneg (p : ℚ) (h0 : 0 ≤ p) (h1 : p ≤ 1) :
    0 ≤ easePower2Out p := by
  unfold easePower2Out; nlinarith

theorem easePower2Out_le_one (p : ℚ) : easePower2Out p ≤ 1 := by
  unfold easePower2Out; nlinarith [sq_nonneg (1 - p)]

theorem updateMotionBlur_u_bounds (s : AppState) (d : ℚ)
    (h : 0 ≤ s.smoothedVelocity) (h0 : 0 ≤ s.uAngularVelocity)
    (h1 : s.uAngularVelocity ≤ 1) :
    0 ≤ (updateMotionBlur s d).smoothedVelocity ∧
      0 ≤ (updateMotionBlur s d).uAngularVelocity ∧
      (updateMotionBlur s d).uAngularVelocity ≤ 1 := by
  have hraw : 0 ≤ |s.rotationY - s.previousRotation| / max d 0.001 :=
    div_nonneg (abs_nonneg _) (le_trans (by norm_num) (le_max_right d 0.001))
  have hsm : 0 ≤ s.smoothedVelocity * velocitySmoothing +
      |s.rotationY - s.previousRotation| / max d 0.001 * (1 - velocitySmoothing) := by
    unfold velocitySmoothing
    nlinarith [h, hraw]
  unfold updateMotionBlur
  refine ⟨hsm, ?_, ?_⟩
  · dsimp only
    split_ifs with hc
    · exact le_min (mul_nonneg hsm (by norm_num [motionSettings])) zero_le_one
    · exact h0
  · dsimp only
    split_ifs with hc
    · exact min_le_right _ _
    · exact h1

theorem runMotionBlur_bounds (inputs : List (ℚ × ℚ)) :
    ∀ s : AppState, 0 ≤ s.smoothedVelocity → 0 ≤ s.uAngularVelocity →
      s.uAngularVelocity ≤ 1 →
      0 ≤ (runMotionBlur s inputs).smoothedVelocity ∧
        0 ≤ (runMotionBlur s inputs).uAngularVelocity ∧
        (runMotionBlur s inputs).uAngularVelocity ≤ 1 := by
  induction inputs with
  | nil => intro s h h0 h1; exact ⟨h, h0, h1⟩
  | cons p rest ih =>
    intro s h h0 h1
    have hb := updateMotionBlur_u_bounds { s with rotationY := p.1 } p.2 h h0 h1
    rw [runMotionBlur]
    exact ih _ hb.1 hb.2.1 hb.2.2

/-- C6: for any finite sequence of motion-blur updates with arbitrary
non-negative deltas and arbitrary rotation-angle changes, the
`uAngularVelocity` uniform (initially 0) stays within `[0, 1]` after every
update: the normalization `min (smoothed * intensity) 1` caps it at 1, and it
never goes negative because the smoothed velocity stays non-negative. Each
`take n` prefix is the state after the n-th tick. -/
theorem angular_velocity_uniform_bounded (inputs : List (ℚ × ℚ))
    (hd : ∀ p ∈ inputs, 0 ≤ p.2) (n : ℕ) :
    0 ≤ (runMotionBlur initState (inputs.take n)).uAngularVelocity ∧
      (runMotionBlur initState (inputs.take n)).uAngularVelocity ≤ 1 := by
  have h := runMotionBlur_bounds (inputs.take n) initState
    (by norm_num [initState]) (by norm_num [initState]) (by norm_num [initState])
  exact ⟨h.2.1, h.2.2⟩

/-- C6 witness: one update with angle jump 1 and delta 1. -/
theorem angular_velocity_uniform_bounded_witness :
    (∀ p ∈ [((1 : ℚ), (1 : ℚ))], 0 ≤ p.2) ∧
      (0 ≤ (runMotionBlur initState ([((1 : ℚ), (1 : ℚ))].take 1)).uAngularVelocity ∧
        (runMotionBlur initState ([((1 : ℚ), (1 : ℚ))].take 1)).uAngularVelocity ≤ 1) :=
  ⟨by norm_num, angular_velocity_uniform_bounded [(1, 1)] (by norm_num) 1⟩

/-- C7: on each tick with delta `d` the raw velocity is
`|current - previous| / max d 0.001` and the smoothed velocity follows the
recurrence `new = 0.9 * old + 0.1 * raw` exactly (the code computes
`old * 0.9 + raw * (1 - 0.9)`); and on the raw-velocity sequence
`[0, 0, 1, 1, 1]` (realized by angles `0, 0, 1, 2, 3` with unit deltas) the
smoothed sequence equals the exponential-moving-average recurrence from 0. -/
theorem velocity_smoothing_recurrence :
    (∀ (s : AppState) (d : ℚ),
      (updateMotionBlur s d).smoothedVelocity =
        0.9 * s.smoothedVelocity +
          0.1 * (|s.rotationY - s.previousRotation| / max d 0.001)) ∧
    mbSmoothedTrace initState [(0, 1), (0, 1), (1, 1), (2, 1), (3, 1)] =
      emaRec 0 [0, 0, 1, 1, 1] := by
  constructor
  · intro s d
    unfold updateMotionBlur velocitySmoothing
    dsimp only
    ring
  · simp only [mbSmoothedTrace, updateMotionBlur, emaRec, initState,
      velocitySmoothing]
    norm_num

/-- C9: for every fragment with wrapped angle `a` and uniform `v` in
`[0, 1]`, the shader computes `epsilon = 0.020 + 0.025 * v` and
`edgeWidth = 0.015 + 0.020 * v`, takes the two smoothsteps of the claim,
passes each through `hermite3`, combines them into
`alpha = 1 - alphaLow * (1 - alphaHigh)`, and discards exactly when
`alpha < 0.01`, else draws with that alpha. -/
theorem sliced_fragment_formula (a sliceArc v : ℚ)
    (h0 : 0 ≤ v) (h1 : v ≤ 1) :
    slicedFragment a sliceArc v =
      (if 1 - hermite3 (smoothstep (0.020 + 0.025 * v)
              ((0.020 + 0.025 * v) + (0.015 + 0.020 * v)) a) *
            (1 - hermite3 (smoothstep (sliceArc - (0.015 + 0.020 * v)) sliceArc a))
            < 0.01 then
        none
       else
        some (1 - hermite3 (smoothstep (0.020 + 0.025 * v)
              ((0.020 + 0.025 * v) + (0.015 + 0.020 * v)) a) *
            (1 - hermite3 (smoothstep (sliceArc - (0.015 + 0.020 * v)) sliceArc a)))) := by
  unfold slicedFragment slicedFragmentAlpha
  rw [mul_comm v (0.025 : ℚ), mul_comm v (0.020 : ℚ)]

/-- C9 witness: an angle well inside the slice window is discarded at v = 0. -/
theorem sliced_fragment_formula_witness :
    (0 : ℚ) ≤ 0 ∧ (0 : ℚ) ≤ 1 ∧
      slicedFragment 0.5 1.25 0 =
        (if 1 - hermite3 (smoothstep (0.020 + 0.025 * 0)
                ((0.020 + 0.025 * 0) + (0.015 + 0.020 * 0)) 0.5) *
              (1 - hermite3 (smoothstep (1.25 - (0.015 + 0.020 * 0)) 1.25 0.5))
              < 0.01 then
          none
         else
          some (1 - hermite3 (smoothstep (0.020 + 0.025 * 0)
                ((0.020 + 0.025 * 0) + (0.015 + 0.020 * 0)) 0.5) *
              (1 - hermite3 (smoothstep (1.25 - (0.015 + 0.020 * 0)) 1.25 0.5)))) :=
  ⟨le_refl 0, by norm_num, sliced_fragment_formula 0.5 1.25 0 (le_refl 0) (by norm_num)⟩

/-- C10: a tick that runs before the model-ready callback (model reference
absent) leaves the whole rotation state, the velocity tracker and the
uniform unchanged, yet still updates the controls, issues one draw and
reschedules itself. -/
theorem tick_before_model_ready (s : AppState) (t : ℚ)
    (hr : s.isRendering = true) (hm : s.modelLoaded = false) :
    (tick s t true).rotationY = s.rotationY ∧
    (tick s t true).rotationSpeedMultiplier = s.rotationSpeedMultiplier ∧
    (tick s t true).autoRotate = s.autoRotate ∧
    (tick s t true).userInteracting = s.userInteracting ∧
    (tick s t true).transitionStartTime = s.transitionStartTime ∧
    (tick s t true).resumeTimeout = s.resumeTimeout ∧
    (tick s t true).smoothedVelocity = s.smoothedVelocity ∧
    (tick s t true).previousRotation = s.previousRotation ∧
    (tick s t true).uAngularVelocity = s.uAngularVelocity ∧
    (tick s t true).controlsUpdateCount = s.controlsUpdateCount + 1 ∧
    (tick s t true).drawCount = s.drawCount + 1 ∧
    (tick s t true).scheduledFrame = true := by
  unfold tick tickModel tickDraw
  simp [hr, hm]

/-- C10 witness: the startup state has no model yet and is rendering. -/
theorem tick_before_model_ready_witness :
    initState.isRendering = true ∧ initState.modelLoaded = false ∧
      ((tick initState 0 true).rotationY = initState.rotationY ∧
       (tick initState 0 true).rotationSpeedMultiplier =
         initState.rotationSpeedMultiplier ∧
       (tick initState 0 true).autoRotate = initState.autoRotate ∧
       (tick initState 0 true).userInteracting = initState.userInteracting ∧
       (tick initState 0 true).transitionStartTime =
         initState.transitionStartTime ∧
       (tick initState 0 true).resumeTimeout = initState.resumeTimeout ∧
       (tick initState 0 true).smoothedVelocity = initState.smoothedVelocity ∧
       (tick initState 0 true).previousRotation = initState.previousRotation ∧
       (tick initState 0 true).uAngularVelocity = initState.uAngularVelocity ∧
       (tick initState 0 true).controlsUpdateCount =
         initState.controlsUpdateCount + 1 ∧
       (tick initState 0 true).drawCount = initState.drawCount + 1 ∧
       (tick initState 0 true).scheduledFrame = true) :=
  ⟨rfl, rfl, tick_before_model_ready initState 0 rfl rfl⟩

/-- C3 counterexample: when the draw call of a tick fails (here: the very
first tick, at time 0, from the startup state), it is not the case that the
failure is surfaced as exactly one more dispatched lifecycle event with
nothing thrown: no event of any kind is dispatched and the exception
escapes the tick callback (`thrownCount` goes from 0 to 1). -/
theorem draw_failure_not_surfaced_as_event :
    ¬ ((tick initState 0 false).readyEvents + (tick initState 0 false).errorEvents +
         (tick initState 0 false).resumedEvents +
         (tick initState 0 false).pausedEvents = 1 ∧
       (tick initState 0 false).thrownCount = 0) := by
  decide

/-- C3 amended: if the draw call inside a tick fails, the loop stops (the
`requestAnimationFrame` after the draw never runs, so no further tick is
scheduled and there is no retry), and the failure propagates as a thrown
exception out of the tick callback instead of being surfaced as an event:
no lifecycle event is dispatched. -/
theorem draw_failure_stops_loop (s : AppState) (t : ℚ)
    (hr : s.isRendering = true) :
    (tick s t false).scheduledFrame = false ∧
    (tick s t false).thrownCount = s.thrownCount + 1 ∧
    (tick s t false).drawCount = s.drawCount ∧
    (tick s t false).readyEvents = s.readyEvents ∧
    (tick s t false).errorEvents = s.errorEvents ∧
    (tick s t false).resumedEvents = s.resumedEvents ∧
    (tick s t false).pausedEvents = s.pausedEvents := by
  unfold tick tickDraw
  simp [hr]

/-- C3 amended witness: the first tick failing at startup. -/
theorem draw_failure_stops_loop_witness :
    initState.isRendering = true ∧
      ((tick initState 0 false).scheduledFrame = false ∧
       (tick initState 0 false).thrownCount = initState.thrownCount + 1 ∧
       (tick initState 0 false).drawCount = initState.drawCount ∧
       (tick initState 0 false).readyEvents = initState.readyEvents ∧
       (tick initState 0 false).errorEvents = initState.errorEvents ∧
       (tick initState 0 false).resumedEvents = initState.resumedEvents ∧
       (tick initState 0 false).pausedEvents = initState.pausedEvents) :=
  ⟨rfl, draw_failure_stops_loop initState 0 rfl⟩

/-- C8: after the visibility controller stops the loop at time `ts` and
restarts it at time `ts + g` (any gap `g`), the first post-resume tick runs
synchronously from `handleVisibilityChange` with the clock baseline freshly
reset, so its delta is exactly 0 seconds, below one frame interval (1/60 s),
regardless of the wall-clock time spent stopped. -/
theorem resume_first_delta_small (s : AppState) (ts g : ℚ)
    (hr : s.isRendering = true) :
    (handleVisibilityChange (handleVisibilityChange s false ts true) true
        (ts + g) true).lastDelta = 0 ∧
    (handleVisibilityChange (handleVisibilityChange s false ts true) true
        (ts + g) true).lastDelta < 1 / 60 := by
  have h1 : handleVisibilityChange s false ts true =
      { s with isRendering := false, scheduledFrame := false,
               clock := s.clock.stopAt ts,
               pausedEvents := s.pausedEvents + 1 } := by
    unfold handleVisibilityChange
    simp [hr]
  rw [h1]
  unfold handleVisibilityChange
  rw [if_pos (by simp)]
  rw [tick_lastDelta]
  rw [if_pos (by simp)]
  unfold Clock.stopAt Clock.startAt Clock.getDelta
  norm_num

/-- C8 witness: a stop at time 5 and a resume one million milliseconds
later still produce a zero first delta. -/
theorem resume_first_delta_small_witness :
    initState.isRendering = true ∧
      ((handleVisibilityChange (handleVisibilityChange initState false 5 true)
          true (5 + 1000000) true).lastDelta = 0 ∧
       (handleVisibilityChange (handleVisibilityChange initState false 5 true)
          true (5 + 1000000) true).lastDelta < 1 / 60) :=
  ⟨rfl, resume_first_delta_small initState 5 1000000 rfl⟩

/-! Characterizations of the rotation blocks of a tick, used for C4. -/

theorem tickRotate_rotationY_skip (s : AppState) (d : ℚ)
    (h : s.userInteracting = true ∨ s.autoRotate = false) :
    (tickRotate s d).rotationY = s.rotationY := by
  unfold tickRotate
  rcases h with h | h <;> (rw [if_neg]; intro hc; simp_all)

theorem tickRotate_rotationY_adv (s : AppState) (d : ℚ)
    (har : s.autoRotate = true) (hui : s.userInteracting = false) :
    (tickRotate s d).rotationY =
      s.rotationY + rotationSettings.speed * s.rotationSpeedMultiplier * d := by
  unfold tickRotate
  rw [if_pos ⟨har, hui, rfl⟩]

theorem tickTransition_id_of_mult_one (s : AppState) (t : ℚ)
    (h : ¬ s.rotationSpeedMultiplier < 1) :
    tickTransition s t = s := by
  unfold tickTransition
  rw [if_neg]
  intro hc
  exact h hc.2.2

theorem tickTransition_id_of_not_auto (s : AppState) (t : ℚ)
    (h : s.autoRotate = false) :
    tickTransition s t = s := by
  unfold tickTransition
  rw [if_neg]
  intro hc
  simp [h] at hc

theorem tickTransition_update (s : AppState) (t : ℚ)
    (har : s.autoRotate = true) (hlt : s.rotationSpeedMultiplier < 1) :
    tickTransition s t =
      { s with rotationSpeedMultiplier := easePower2Out
                 (min ((t - s.transitionStartTime) / rotationSettings.transitionDuration) 1) } := by
  unfold tickTransition
  rw [if_pos ⟨har, rfl, hlt⟩]

theorem tick_rotationY_eq (s : AppState) (t : ℚ) (ok : Bool)
    (hr : s.isRendering = true) (hm : s.modelLoaded = true) :
    (tick s t ok).rotationY =
      (tickRotate
        (tickTransition
          { s with clock := (s.clock.getDelta t).2,
                   lastDelta := (s.clock.getDelta t).1 } t)
        ((s.clock.getDelta t).1)).rotationY := by
  unfold tick tickModel
  simp [hr, hm]

theorem tick_mult_eq (s : AppState) (t : ℚ) (ok : Bool)
    (hr : s.isRendering = true) (hm : s.modelLoaded = true) :
    (tick s t ok).rotationSpeedMultiplier =
      (tickTransition
        { s with clock := (s.clock.getDelta t).2,
                 lastDelta := (s.clock.getDelta t).1 } t).rotationSpeedMultiplier := by
  unfold tick tickModel
  simp [hr, hm]

/-- C4: on a tick with non-negative delta, the rotation angle advances by
exactly `speed * multiplier * delta` while auto-rotating or transitioning
(with, in a transition, the multiplier recomputed first as
`easePower2Out (min (elapsed / transitionDuration) 1)` from the recorded
transition start time), and the angle is untouched while interacting or
while a resume is pending (auto-rotation off). -/
theorem tick_rotation_advance (s : AppState) (t : ℚ)
    (hm : s.modelLoaded = true) (hr : s.isRendering = true)
    (hd : 0 ≤ (s.clock.getDelta t).1) :
    (s.userInteracting = true → (tick s t true).rotationY = s.rotationY) ∧
    (s.userInteracting = false → s.autoRotate = false →
       (tick s t true).rotationY = s.rotationY) ∧
    (s.userInteracting = false → s.autoRotate = true →
       s.rotationSpeedMultiplier = 1 →
       (tick s t true).rotationY =
         s.rotationY + rotationSettings.speed * s.rotationSpeedMultiplier *
           (s.clock.getDelta t).1) ∧
    (s.userInteracting = false → s.autoRotate = true →
       s.rotationSpeedMultiplier < 1 →
       (tick s t true).rotationSpeedMultiplier =
         easePower2Out (min ((t - s.transitionStartTime) /
           rotationSettings.transitionDuration) 1) ∧
       (tick s t true).rotationY =
         s.rotationY + rotationSettings.speed *
           (tick s t true).rotationSpeedMultiplier * (s.clock.getDelta t).1) := by
  have hy := tick_rotationY_eq s t true hr hm
  have hmu := tick_mult_eq s t true hr hm
  refine ⟨?_, ?_, ?_, ?_⟩
  · intro h1
    rw [hy, tickRotate_rotationY_skip _ _ (Or.inl (by simp [h1]))]
    simp
  · intro h1 h2
    rw [hy, tickRotate_rotationY_skip _ _ (Or.inr (by simp [h2]))]
    simp
  · intro h1 h2 h3
    rw [hy, tickTransition_id_of_mult_one _ _ (by simp [h3]),
      tickRotate_rotationY_adv _ _ (by simp [h2]) (by simp [h1])]
  · intro h1 h2 h3
    have ht := tickTransition_update
      { s with clock := (s.clock.getDelta t).2,
               lastDelta := (s.clock.getDelta t).1 } t (by simp [h2]) (by simp [h3])
    have hmu2 : (tick s t true).rotationSpeedMultiplier =
        easePower2Out (min ((t - s.transitionStartTime) /
          rotationSettings.transitionDuration) 1) := by
      rw [hmu, ht]
    refine ⟨hmu2, ?_⟩
    rw [hy, ht, tickRotate_rotationY_adv _ _ (by simp [h2]) (by simp [h1]), hmu2]

/-- C4 witness: the startup state with the model installed, ticking at
time 0 (delta 0) in the auto-rotating state with multiplier 1. -/
theorem tick_rotation_advance_witness :
    ({ initState with modelLoaded := true } : AppState).modelLoaded = true ∧
    ({ initState with modelLoaded := true } : AppState).isRendering = true ∧
    0 ≤ (({ initState with modelLoaded := true } : AppState).clock.getDelta 0).1 ∧
    (({ initState with modelLoaded := true } : AppState).userInteracting = true →
       (tick { initState with modelLoaded := true } 0 true).rotationY =
         ({ initState with modelLoaded := true } : AppState).rotationY) ∧
    (({ initState with modelLoaded := true } : AppState).userInteracting = false →
       ({ initState with modelLoaded := true } : AppState).autoRotate = false →
       (tick { initState with modelLoaded := true } 0 true).rotationY =
         ({ initState with modelLoaded := true } : AppState).rotationY) ∧
    (({ initState with modelLoaded := true } : AppState).userInteracting = false →
       ({ initState with modelLoaded := true } : AppState).autoRotate = true →
       ({ initState with modelLoaded := true } : AppState).rotationSpeedMultiplier = 1 →
       (tick { initState with modelLoaded := true } 0 true).rotationY =
         ({ initState with modelLoaded := true } : AppState).rotationY +
           rotationSettings.speed *
             ({ initState with modelLoaded := true } : AppState).rotationSpeedMultiplier *
             (({ initState with modelLoaded := true } : AppState).clock.getDelta 0).1) ∧
    (({ initState with modelLoaded := true } : AppState).userInteracting = false →
       ({ initState with modelLoaded := true } : AppState).autoRotate = true →
       ({ initState with modelLoaded := true } : AppState).rotationSpeedMultiplier < 1 →
       (tick { initState with modelLoaded := true } 0 true).rotationSpeedMultiplier =
         easePower2Out (min ((0 - ({ initState with modelLoaded := true } : AppState).transitionStartTime) /
           rotationSettings.transitionDuration) 1) ∧
       (tick { initState with modelLoaded := true } 0 true).rotationY =
         ({ initState with modelLoaded := true } : AppState).rotationY +
           rotationSettings.speed *
             (tick { initState with modelLoaded := true } 0 true).rotationSpeedMultiplier *
             (({ initState with modelLoaded := true } : AppState).clock.getDelta 0).1) := by
  have h := tick_rotation_advance { initState with modelLoaded := true } 0 rfl rfl
    (by norm_num [initState, Clock.init, Clock.getDelta])
  exact ⟨rfl, rfl, by norm_num [initState, Clock.init, Clock.getDelta],
    h.1, h.2.1, h.2.2.1, h.2.2.2⟩

/-! Preservation lemmas used by the temporal claims C1 and C2. -/

theorem hvc_userInteracting (s : AppState) (v : Bool) (t : ℚ) (ok : Bool) :
    (handleVisibilityChange s v t ok).userInteracting = s.userInteracting := by
  unfold handleVisibilityChange
  split_ifs <;> simp [tick_userInteracting]

theorem hvc_resumeTimeout (s : AppState) (v : Bool) (t : ℚ) (ok : Bool) :
    (handleVisibilityChange s v t ok).resumeTimeout = s.resumeTimeout := by
  unfold handleVisibilityChange
  split_ifs <;> simp [tick_resumeTimeout]

theorem onIntersection_userInteracting (s : AppState) (b : Bool) (t : ℚ)
    (ok : Bool) :
    (onIntersection s b t ok).userInteracting = s.userInteracting := by
  unfold onIntersection
  split_ifs <;> simp [hvc_userInteracting]

theorem onIntersection_resumeTimeout (s : AppState) (b : Bool) (t : ℚ)
    (ok : Bool) :
    (onIntersection s b t ok).resumeTimeout = s.resumeTimeout := by
  unfold onIntersection
  split_ifs <;> simp [hvc_resumeTimeout]

theorem firePauseTimer_userInteracting (s : AppState) (t : ℚ) :
    (firePauseTimer s t).userInteracting = s.userInteracting := by
  cases h : s.pauseTimeout with
  | none => simp [firePauseTimer, h]
  | some d =>
    simp only [firePauseTimer, h]
    split_ifs <;> simp [hvc_userInteracting]

theorem firePauseTimer_resumeTimeout (s : AppState) (t : ℚ) :
    (firePauseTimer s t).resumeTimeout = s.resumeTimeout := by
  cases h : s.pauseTimeout with
  | none => simp [firePauseTimer, h]
  | some d =>
    simp only [firePauseTimer, h]
    split_ifs <;> simp [hvc_resumeTimeout]

theorem stepAt_keeps_interaction (s : AppState) (t : ℚ) (e : Event)
    (hui : s.userInteracting = true) (hrt : s.resumeTimeout = none)
    (he1 : e ≠ Event.controlsEnd) (he2 : e ≠ Event.mouseleave) :
    (stepAt s t e).userInteracting = true ∧
      (stepAt s t e).resumeTimeout = none := by
  cases e with
  | mousedown b =>
    show (onMouseDown s b).userInteracting = true ∧
      (onMouseDown s b).resumeTimeout = none
    unfold onMouseDown
    split_ifs <;> exact ⟨hui, hrt⟩
  | mouseup => exact ⟨hui, hrt⟩
  | mouseleave => exact absurd rfl he2
  | touchstart => exact ⟨hui, hrt⟩
  | touchend => exact ⟨hui, hrt⟩
  | touchcancel => exact ⟨hui, hrt⟩
  | controlsStart =>
    show (onControlsStart s).userInteracting = true ∧
      (onControlsStart s).resumeTimeout = none
    unfold onControlsStart
    split_ifs <;> first
      | exact ⟨rfl, rfl⟩
      | exact ⟨hui, hrt⟩
  | controlsEnd => exact absurd rfl he1
  | resumeTimer =>
    show (fireResumeTimer s t).userInteracting = true ∧
      (fireResumeTimer s t).resumeTimeout = none
    simp [fireResumeTimer, hrt, hui]
  | modelReady => exact ⟨hui, hrt⟩
  | modelError => exact ⟨hui, hrt⟩
  | intersection b ok =>
    refine ⟨?_, ?_⟩
    · show (onIntersection s b t ok).userInteracting = true
      rw [onIntersection_userInteracting]; exact hui
    · show (onIntersection s b t ok).resumeTimeout = none
      rw [onIntersection_resumeTimeout]; exact hrt
  | pauseTimer =>
    refine ⟨?_, ?_⟩
    · show (firePauseTimer s t).userInteracting = true
      rw [firePauseTimer_userInteracting]; exact hui
    · show (firePauseTimer s t).resumeTimeout = none
      rw [firePauseTimer_resumeTimeout]; exact hrt
  | tickEv ok =>
    refine ⟨?_, ?_⟩
    · show (tick s t ok).userInteracting = true
      rw [tick_userInteracting]; exact hui
    · show (tick s t ok).resumeTimeout = none
      rw [tick_resumeTimeout]; exact hrt

theorem runTrace_keeps_interaction (es : List (ℚ × Event)) :
    ∀ s : AppState, s.userInteracting = true → s.resumeTimeout = none →
      (∀ p ∈ es, p.2 ≠ Event.controlsEnd ∧ p.2 ≠ Event.mouseleave) →
      (runTrace s es).userInteracting = true ∧
        (runTrace s es).resumeTimeout = none := by
  induction es with
  | nil => intro s h1 h2 _; exact ⟨h1, h2⟩
  | cons p rest ih =>
    intro s h1 h2 hall
    have hp := hall p (List.mem_cons_self _ _)
    have hstep := stepAt_keeps_interaction s p.1 p.2 h1 h2 hp.1 hp.2
    rw [runTrace]
    exact ih _ hstep.1 hstep.2 (fun q hq => hall q (List.mem_cons_of_mem _ hq))

/-- C1: an interaction-start honored because a real mouse press or touch is
active marks the interaction and cancels any pending resume timer at that
moment; and through any further event trace that does not end the
interaction (no `end` event, no `mouseleave`), the interaction stays marked,
no resume timer exists, and any attempted resume-timer firing leaves the
state completely unchanged, so no timer scheduled by an earlier
interaction-end can ever switch the machine to transitioning or
auto-rotating while the interaction is ongoing. -/
theorem interaction_start_cancels_resume (s : AppState) (t0 : ℚ)
    (hp : s.isMouseDown = true ∨ s.isTouching = true)
    (es : List (ℚ × Event))
    (hes : ∀ p ∈ es, p.2 ≠ Event.controlsEnd ∧ p.2 ≠ Event.mouseleave) :
    (stepAt s t0 Event.controlsStart).userInteracting = true ∧
    (stepAt s t0 Event.controlsStart).resumeTimeout = none ∧
    (runTrace (stepAt s t0 Event.controlsStart) es).userInteracting = true ∧
    (runTrace (stepAt s t0 Event.controlsStart) es).resumeTimeout = none ∧
    ∀ t', fireResumeTimer (runTrace (stepAt s t0 Event.controlsStart) es) t' =
      runTrace (stepAt s t0 Event.controlsStart) es := by
  have h1 : (stepAt s t0 Event.controlsStart).userInteracting = true ∧
      (stepAt s t0 Event.controlsStart).resumeTimeout = none := by
    show (onControlsStart s).userInteracting = true ∧
      (onControlsStart s).resumeTimeout = none
    unfold onControlsStart
    rw [if_pos hp,
      if_pos (show rotationSettings.pauseOnInteraction = true from rfl)]
    exact ⟨rfl, rfl⟩
  have h2 := runTrace_keeps_interaction es _ h1.1 h1.2 hes
  refine ⟨h1.1, h1.2, h2.1, h2.2, ?_⟩
  intro t'
  simp only [fireResumeTimer, h2.2]

/-- C1 witness: a start event honored by an active left-button press, with
an empty follow-up trace and a timer-fire attempt at time 12345. -/
theorem interaction_start_cancels_resume_witness :
    (({ initState with isMouseDown := true } : AppState).isMouseDown = true ∨
      ({ initState with isMouseDown := true } : AppState).isTouching = true) ∧
    (stepAt { initState with isMouseDown := true } 0
        Event.controlsStart).userInteracting = true ∧
    (stepAt { initState with isMouseDown := true } 0
        Event.controlsStart).resumeTimeout = none ∧
    fireResumeTimer (runTrace (stepAt { initState with isMouseDown := true } 0
        Event.controlsStart) []) 12345 =
      runTrace (stepAt { initState with isMouseDown := true } 0
        Event.controlsStart) [] := by
  have h := interaction_start_cancels_resume
    { initState with isMouseDown := true } 0 (Or.inl rfl) [] (by simp)
  exact ⟨Or.inl rfl, h.1, h.2.1, h.2.2.2.2 12345⟩

theorem hvc_visible_id (s : AppState) (t : ℚ) (ok : Bool)
    (h : s.isRendering = true) :
    handleVisibilityChange s true t ok = s := by
  unfold handleVisibilityChange
  simp [h]

theorem onIntersection_hidden (s : AppState) (t : ℚ) (ok : Bool)
    (hvis : s.visIsVisible = true) :
    onIntersection s false t ok =
      { s with visIsVisible := false, pauseTimeout := some (t + PAUSE_DELAY) } := by
  unfold onIntersection
  simp [hvis]

theorem onIntersection_visible_keeps (s : AppState) (t : ℚ) (ok : Bool)
    (h : s.isRendering = true) :
    (onIntersection s true t ok).isRendering = true ∧
    (onIntersection s true t ok).clock = s.clock ∧
    (onIntersection s true t ok).pausedEvents = s.pausedEvents := by
  unfold onIntersection
  split_ifs with h1 h2
  · rw [hvc_visible_id { s with visIsVisible := true, pauseTimeout := none }
      t ok h]
    exact ⟨h, rfl, rfl⟩
  · simp at h2
  · exact ⟨h, rfl, rfl⟩

theorem stepAt_pause_window (s : AppState) (t : ℚ) (e : Event) (dl : ℚ)
    (hR : s.isRendering = true) (hC : s.clock.running = true)
    (hP : s.pauseTimeout = some dl) (ht : t < dl)
    (he : ∀ b ok, e ≠ Event.intersection b ok) :
    (stepAt s t e).isRendering = true ∧ (stepAt s t e).clock.running = true ∧
    (stepAt s t e).pauseTimeout = some dl ∧
    (stepAt s t e).pausedEvents = s.pausedEvents := by
  cases e with
  | mousedown b =>
    show (onMouseDown s b).isRendering = true ∧
      (onMouseDown s b).clock.running = true ∧
      (onMouseDown s b).pauseTimeout = some dl ∧
      (onMouseDown s b).pausedEvents = s.pausedEvents
    unfold onMouseDown
    split_ifs <;> exact ⟨hR, hC, hP, rfl⟩
  | mouseup => exact ⟨hR, hC, hP, rfl⟩
  | mouseleave =>
    show (onMouseLeave s t).isRendering = true ∧
      (onMouseLeave s t).clock.running = true ∧
      (onMouseLeave s t).pauseTimeout = some dl ∧
      (onMouseLeave s t).pausedEvents = s.pausedEvents
    unfold onMouseLeave resumeRotation
    split_ifs <;> exact ⟨hR, hC, hP, rfl⟩
  | touchstart => exact ⟨hR, hC, hP, rfl⟩
  | touchend => exact ⟨hR, hC, hP, rfl⟩
  | touchcancel => exact ⟨hR, hC, hP, rfl⟩
  | controlsStart =>
    show (onControlsStart s).isRendering = true ∧
      (onControlsStart s).clock.running = true ∧
      (onControlsStart s).pauseTimeout = some dl ∧
      (onControlsStart s).pausedEvents = s.pausedEvents
    unfold onControlsStart
    split_ifs <;> exact ⟨hR, hC, hP, rfl⟩
  | controlsEnd =>
    show (onControlsEnd s t).isRendering = true ∧
      (onControlsEnd s t).clock.running = true ∧
      (onControlsEnd s t).pauseTimeout = some dl ∧
      (onControlsEnd s t).pausedEvents = s.pausedEvents
    unfold onControlsEnd resumeRotation
    split_ifs <;> exact ⟨hR, hC, hP, rfl⟩
  | resumeTimer =>
    show (fireResumeTimer s t).isRendering = true ∧
      (fireResumeTimer s t).clock.running = true ∧
      (fireResumeTimer s t).pauseTimeout = some dl ∧
      (fireResumeTimer s t).pausedEvents = s.pausedEvents
    cases hrt : s.resumeTimeout with
    | none => simp [fireResumeTimer, hrt, hR, hC, hP]
    | some d =>
      simp only [fireResumeTimer, hrt]
      split_ifs <;> simp [hR, hC, hP]
  | modelReady => exact ⟨hR, hC, hP, rfl⟩
  | modelError => exact ⟨hR, hC, hP, rfl⟩
  | intersection b ok => exact absurd rfl (he b ok)
  | pauseTimer =>
    show (firePauseTimer s t).isRendering = true ∧
      (firePauseTimer s t).clock.running = true ∧
      (firePauseTimer s t).pauseTimeout = some dl ∧
      (firePauseTimer s t).pausedEvents = s.pausedEvents
    simp only [firePauseTimer, hP]
    rw [if_neg (not_le.mpr ht)]
    simp [hR, hC, hP]
  | tickEv ok =>
    refine ⟨?_, ?_, ?_, ?_⟩
    · show (tick s t ok).isRendering = true
      rw [tick_isRendering]; exact hR
    · show (tick s t ok).clock.running = true
      rw [tick_clock, if_pos hR]
      exact Clock.getDelta_running _ _ hC
    · show (tick s t ok).pauseTimeout = some dl
      rw [tick_pauseTimeout]; exact hP
    · show (tick s t ok).pausedEvents = s.pausedEvents
      rw [tick_pausedEvents]

theorem runTrace_pause_window (es : List (ℚ × Event)) (dl : ℚ) :
    ∀ s : AppState, s.isRendering = true → s.clock.running = true →
      s.pauseTimeout = some dl →
      (∀ p ∈ es, p.1 < dl ∧ ∀ b ok, p.2 ≠ Event.intersection b ok) →
      (runTrace s es).isRendering = true ∧
      (runTrace s es).clock.running = true ∧
      (runTrace s es).pauseTimeout = some dl ∧
      (runTrace s es).pausedEvents = s.pausedEvents := by
  induction es with
  | nil => intro s h1 h2 h3 _; exact ⟨h1, h2, h3, rfl⟩
  | cons p rest ih =>
    intro s h1 h2 h3 hall
    have hp := hall p (List.mem_cons_self _ _)
    have hstep := stepAt_pause_window s p.1 p.2 dl h1 h2 h3 hp.1 hp.2
    rw [runTrace]
    have hrest := ih _ hstep.1 hstep.2.1 hstep.2.2.1
      (fun q hq => hall q (List.mem_cons_of_mem _ hq))
    exact ⟨hrest.1, hrest.2.1, hrest.2.2.1, hrest.2.2.2.trans hstep.2.2.2⟩

/-- C2: when the intersection signal goes hidden at `t0` and returns to
visible at `t1` strictly within the pause delay, with all intermediate
events earlier than the pause deadline and none of them an intersection
flip, the rendering-paused notification is never produced, the render loop
is never stopped (`isRendering` stays true), and the frame clock is never
stopped, both throughout the hidden window and after the visible flip. -/
theorem visibility_debounce_no_pause (s : AppState) (t0 t1 : ℚ)
    (hvis : s.visIsVisible = true) (hR : s.isRendering = true)
    (hC : s.clock.running = true) (es : List (ℚ × Event))
    (hes : ∀ p ∈ es, p.1 < t0 + PAUSE_DELAY ∧
      ∀ b ok, p.2 ≠ Event.intersection b ok)
    (ht1 : t1 < t0 + PAUSE_DELAY) (okf : Bool) :
    (runTrace (onIntersection s false t0 true) es).isRendering = true ∧
    (runTrace (onIntersection s false t0 true) es).clock.running = true ∧
    (runTrace (onIntersection s false t0 true) es).pausedEvents =
      s.pausedEvents ∧
    (onIntersection (runTrace (onIntersection s false t0 true) es) true t1
        okf).isRendering = true ∧
    (onIntersection (runTrace (onIntersection s false t0 true) es) true t1
        okf).clock.running = true ∧
    (onIntersection (runTrace (onIntersection s false t0 true) es) true t1
        okf).pausedEvents = s.pausedEvents := by
  have h1 := onIntersection_hidden s t0 true hvis
  have hp : (onIntersection s false t0 true).pausedEvents = s.pausedEvents := by
    rw [h1]
  have h2 := runTrace_pause_window es (t0 + PAUSE_DELAY)
    (onIntersection s false t0 true)
    (by rw [h1]; exact hR) (by rw [h1]; exact hC) (by rw [h1]) hes
  have h3 := onIntersection_visible_keeps
    (runTrace (onIntersection s false t0 true) es) t1 okf h2.1
  exact ⟨h2.1, h2.2.1, h2.2.2.2.trans hp, h3.1,
    by rw [h3.2.1]; exact h2.2.1, h3.2.2.trans (h2.2.2.2.trans hp)⟩

/-- C2 witness: hidden at time 0, visible again at time 100 (within the
500 ms pause delay), no intermediate events, on a state with a running
clock. -/
theorem visibility_debounce_no_pause_witness :
    ({ initState with clock := Clock.init.startAt 0 } : AppState).visIsVisible
        = true ∧
    ({ initState with clock := Clock.init.startAt 0 } : AppState).isRendering
        = true ∧
    ({ initState with clock := Clock.init.startAt 0 } : AppState).clock.running
        = true ∧
    (100 : ℚ) < 0 + PAUSE_DELAY ∧
    (onIntersection (runTrace (onIntersection
        { initState with clock := Clock.init.startAt 0 } false 0 true) [])
        true 100 true).isRendering = true ∧
    (onIntersection (runTrace (onIntersection
        { initState with clock := Clock.init.startAt 0 } false 0 true) [])
        true 100 true).clock.running = true ∧
    (onIntersection (runTrace (onIntersection
        { initState with clock := Clock.init.startAt 0 } false 0 true) [])
        true 100 true).pausedEvents =
      ({ initState with clock := Clock.init.startAt 0 } : AppState).pausedEvents := by
  have h := visibility_debounce_no_pause
    { initState with clock := Clock.init.startAt 0 } 0 100 rfl rfl rfl []
    (by simp) (by norm_num [PAUSE_DELAY]) true
  exact ⟨rfl, rfl, rfl, by norm_num [PAUSE_DELAY],
    h.2.2.2.1, h.2.2.2.2.1, h.2.2.2.2.2⟩

/-! Preservation of the rotation invariant `RotInv` by every event, and the
reachability theorem for C5. -/

theorem rotInv_mono {t t' : ℚ} {s : AppState} (h : RotInv t s) (ht : t ≤ t') :
    RotInv t' s :=
  ⟨h.1.trans ht, h.2⟩

theorem rotInv_tickTransition (s : AppState) (t : ℚ) (h : RotInv t s) :
    RotInv t (tickTransition s t) := by
  obtain ⟨h1, h2, h3, h4, h5⟩ := h
  unfold tickTransition
  split_ifs with hc
  · have hp0 : 0 ≤ (t - s.transitionStartTime) /
        rotationSettings.transitionDuration := by
      apply div_nonneg (by linarith)
      norm_num [rotationSettings, TRANSITION_DURATION]
    refine ⟨h1, ?_, ?_, ?_, ?_⟩
    · exact easePower2Out_nonneg _ (le_min hp0 zero_le_one) (min_le_right _ _)
    · exact easePower2Out_le_one _
    · intro hu
      exact h4 hu
    · intro har
      rw [hc.1] at har
      exact absurd har (by decide)
  · exact ⟨h1, h2, h3, h4, h5⟩

theorem rotInv_tickModel (s : AppState) (t d : ℚ) (h : RotInv t s) :
    RotInv t (tickModel s t d) := by
  have h2 := rotInv_tickTransition s t h
  unfold tickModel
  split_ifs with hm hmb
  · unfold RotInv at h2 ⊢
    simpa using h2
  · unfold RotInv at h2 ⊢
    simpa using h2
  · exact h

theorem rotInv_tick (s : AppState) (t : ℚ) (ok : Bool) (h : RotInv t s) :
    RotInv t (tick s t ok) := by
  unfold tick
  split_ifs with hren
  · have h2 : RotInv t ({ s with clock := (s.clock.getDelta t).2,
                                 lastDelta := (s.clock.getDelta t).1 } : AppState) := h
    have h3 := rotInv_tickModel _ t ((s.clock.getDelta t).1) h2
    unfold RotInv at h3 ⊢
    simpa using h3
  · exact h

theorem rotInv_resumeRotation (s : AppState) (t t' : ℚ) (h : RotInv t s) :
    RotInv t (resumeRotation s t') := by
  obtain ⟨h1, h2, h3, h4, h5⟩ := h
  unfold resumeRotation
  split_ifs <;> exact ⟨h1, h2, h3, fun hu => absurd hu (by simp), h5⟩

theorem rotInv_fireResumeTimer (s : AppState) (t : ℚ) (h : RotInv t s) :
    RotInv t (fireResumeTimer s t) := by
  obtain ⟨h1, h2, h3, h4, h5⟩ := h
  cases hrt : s.resumeTimeout with
  | none =>
    simp only [fireResumeTimer, hrt]
    exact ⟨h1, h2, h3, h4, h5⟩
  | some d =>
    simp only [fireResumeTimer, hrt]
    split_ifs with hd hui hsm
    · exact ⟨le_refl t, le_refl 0, zero_le_one,
        fun hu => absurd (hui.symm.trans hu) (by decide),
        fun har => absurd har (by simp)⟩
    · exact ⟨h1, zero_le_one, le_refl 1,
        fun hu => absurd (hui.symm.trans hu) (by decide),
        fun har => absurd har (by simp)⟩
    · exact ⟨h1, h2, h3, h4, h5⟩
    · exact ⟨h1, h2, h3, h4, h5⟩

theorem rotInv_onControlsStart (s : AppState) (t : ℚ) (h : RotInv t s) :
    RotInv t (onControlsStart s) := by
  obtain ⟨h1, h2, h3, h4, h5⟩ := h
  unfold onControlsStart
  split_ifs with ha hb
  · exact ⟨h1, le_refl 0, zero_le_one, fun _ => rfl, fun _ => rfl⟩
  · exact absurd rfl hb
  · exact ⟨h1, h2, h3, h4, h5⟩

theorem rotInv_hvc (s : AppState) (v : Bool) (t : ℚ) (ok : Bool)
    (h : RotInv t s) : RotInv t (handleVisibilityChange s v t ok) := by
  obtain ⟨h1, h2, h3, h4, h5⟩ := h
  unfold handleVisibilityChange
  split_ifs
  · exact rotInv_tick _ t ok ⟨h1, h2, h3, h4, h5⟩
  · exact ⟨h1, h2, h3, h4, h5⟩
  · exact ⟨h1, h2, h3, h4, h5⟩

theorem rotInv_stepAt (s : AppState) (t : ℚ) (e : Event) (h : RotInv t s) :
    RotInv t (stepAt s t e) := by
  obtain ⟨h1, h2, h3, h4, h5⟩ := h
  cases e with
  | mousedown b =>
    show RotInv t (onMouseDown s b)
    unfold onMouseDown
    split_ifs <;> exact ⟨h1, h2, h3, h4, h5⟩
  | mouseup => exact ⟨h1, h2, h3, h4, h5⟩
  | mouseleave =>
    show RotInv t (onMouseLeave s t)
    unfold onMouseLeave
    split_ifs
    · exact rotInv_resumeRotation _ t t ⟨h1, h2, h3, h4, h5⟩
    · exact ⟨h1, h2, h3, h4, h5⟩
  | touchstart => exact ⟨h1, h2, h3, h4, h5⟩
  | touchend => exact ⟨h1, h2, h3, h4, h5⟩
  | touchcancel => exact ⟨h1, h2, h3, h4, h5⟩
  | controlsStart => exact rotInv_onControlsStart s t ⟨h1, h2, h3, h4, h5⟩
  | controlsEnd =>
    show RotInv t (onControlsEnd s t)
    unfold onControlsEnd
    split_ifs
    · exact rotInv_resumeRotation s t t ⟨h1, h2, h3, h4, h5⟩
    · exact ⟨h1, h2, h3, h4, h5⟩
  | resumeTimer => exact rotInv_fireResumeTimer s t ⟨h1, h2, h3, h4, h5⟩
  | modelReady => exact ⟨h1, h2, h3, h4, h5⟩
  | modelError => exact ⟨h1, h2, h3, h4, h5⟩
  | intersection b ok =>
    show RotInv t (onIntersection s b t ok)
    unfold onIntersection
    split_ifs
    · exact rotInv_hvc _ true t ok ⟨h1, h2, h3, h4, h5⟩
    · exact ⟨h1, h2, h3, h4, h5⟩
    · exact ⟨h1, h2, h3, h4, h5⟩
  | pauseTimer =>
    show RotInv t (firePauseTimer s t)
    cases hpt : s.pauseTimeout with
    | none =>
      simp only [firePauseTimer, hpt]
      exact ⟨h1, h2, h3, h4, h5⟩
    | some d =>
      simp only [firePauseTimer, hpt]
      split_ifs
      · exact rotInv_hvc _ false t true ⟨h1, h2, h3, h4, h5⟩
      · exact ⟨h1, h2, h3, h4, h5⟩
  | tickEv ok => exact rotInv_tick s t ok ⟨h1, h2, h3, h4, h5⟩

theorem reach_rotInv (t : ℚ) (s : AppState) (h : Reach t s) : RotInv t s := by
  induction h with
  | init =>
    refine ⟨?_, ?_, ?_, ?_, ?_⟩ <;> simp [initState, RotInv]
  | step t' e hr hle ih => exact rotInv_stepAt _ t' e (rotInv_mono ih hle)

/-- C5: in every state reachable from startup through a time-monotone
sequence of ticks, interaction signals, visibility changes and timer
firings, the speed multiplier lies in `[0, 1]`, and it is zero whenever an
interaction is active (Interacting) or auto-rotation is off with the
interaction over (ResumeScheduled); it can be nonzero only while
auto-rotating or transitioning. -/
theorem speed_multiplier_invariant (t : ℚ) (s : AppState) (h : Reach t s) :
    (0 ≤ s.rotationSpeedMultiplier ∧ s.rotationSpeedMultiplier ≤ 1) ∧
    (s.userInteracting = true → s.rotationSpeedMultiplier = 0) ∧
    (s.userInteracting = false → s.autoRotate = false →
      s.rotationSpeedMultiplier = 0) := by
  obtain ⟨h1, h2, h3, h4, h5⟩ := reach_rotInv t s h
  exact ⟨⟨h2, h3⟩, fun hu => h5 (h4 hu), fun _ har => h5 har⟩

/-- C5 witness: the startup state is reachable at time 0. -/
theorem speed_multiplier_invariant_witness :
    (0 ≤ initState.rotationSpeedMultiplier ∧
      initState.rotationSpeedMultiplier ≤ 1) ∧
    (initState.userInteracting = true →
      initState.rotationSpeedMultiplier = 0) ∧
    (initState.userInteracting = false → initState.autoRotate = false →
      initState.rotationSpeedMultiplier = 0) :=
  speed_multiplier_invariant 0 initState Reach.init

end WebglHero
